import Mathlib

/-!
Shallow embedding of the ElderFlow billing subsystem: the rate resolver,
the invoice builder, the payment ledger (admin mark-paid route and the
Stripe webhook payment handler), and the approve route.

JavaScript numbers are modelled as rationals; `Math.round` is
floor of x + 1/2 (JS rounds halves toward positive infinity).
Optional / possibly non-numeric rule fields are modelled as `Option`,
with `none` standing for a field whose `Number(...)` coercion is NaN
(absent, null-chained, or non-numeric).
-/

namespace ElderFlow

/-- JavaScript `Math.round` on rationals: floor of x + 1/2. -/
def jsRound (x : ℚ) : ℤ := ⌊x + 1/2⌋

/-- Helper `round2` (invoice routes): `Math.round(n * 100) / 100`. -/
def round2 (n : ℚ) : ℚ := (jsRound (n * 100) : ℚ) / 100

/-- JavaScript `a || b` on numbers: `a` is falsy exactly when it is 0
(NaN is handled by `numOr` below, since ℚ has no NaN). -/
def jsNumOr (a b : ℚ) : ℚ := if a = 0 then b else a

/-- JavaScript `Number(v) || fallback` where `v` is an optional field:
`none` stands for a NaN result of the coercion. -/
def numOr (v : Option ℚ) (fallback : ℚ) : ℚ :=
  match v with
  | none => fallback
  | some q => jsNumOr q fallback

/-- A billing-rules JSON object (client-level override or org-level default),
as consumed by `getBillingContext`: each field already passed through the
`Number(...)` / string-comparison views the code applies to it. -/
structure RateRule where
  hourlyRate : Option ℚ
  minDuration : Option ℚ
  rounding : Option String

/-- The resolved billing triple returned by `getBillingContext`. -/
structure BillingContext where
  hourlyRate : ℚ
  minDuration : ℚ
  rounding : String
deriving DecidableEq

/-- Embeds `getBillingContext(clientRules, orgRules)` from the invoice routes:
`Number(client) || Number(org) || 150` for the hourly rate, the same with
fallback 0 for the minimum duration, and the nested ternary on the
rounding strings. -/
def getBillingContext (clientRules orgRules : RateRule) : BillingContext :=
  { hourlyRate := numOr clientRules.hourlyRate (numOr orgRules.hourlyRate 150),
    minDuration := numOr clientRules.minDuration (numOr orgRules.minDuration 0),
    rounding :=
      if clientRules.rounding = some "6m" ∨ clientRules.rounding = some "15m" then
        clientRules.rounding.getD "none"
      else if orgRules.rounding = some "6m" ∨ orgRules.rounding = some "15m" then
        orgRules.rounding.getD "none"
      else "none" }

/-- Embeds `adjustMinutes(minutes, minDuration, rounding)`: raise to the
minimum duration, then round to the nearest 6- or 15-minute step. -/
def adjustMinutes (minutes minDuration : ℚ) (rounding : String) : ℚ :=
  let m := if minDuration > 0 ∧ minutes < minDuration then minDuration else minutes
  if rounding = "6m" then (jsRound (m / 6) : ℚ) * 6
  else if rounding = "15m" then (jsRound (m / 15) : ℚ) * 15
  else m

/-- The rounding half of `adjustMinutes` (its lines after the minimum-duration
floor), split out so the floor-before-rounding order can be stated. -/
def applyRounding (m : ℚ) (rounding : String) : ℚ :=
  if rounding = "6m" then (jsRound (m / 6) : ℚ) * 6
  else if rounding = "15m" then (jsRound (m / 15) : ℚ) * 15
  else m

/-- A service type row: `rateType` is a free-form string in the schema
("hourly" / "flat" by convention), `rateAmount` a non-null double. -/
structure ServiceType where
  name : String
  rateType : String
  rateAmount : ℚ
deriving DecidableEq

/-- A billable activity as consumed by the generate route: the stored
`duration` column (0 is falsy and falls back to the timestamps),
start and end times in epoch milliseconds, and the included service type. -/
structure Activity where
  id : String
  duration : ℚ
  startTime : ℚ
  endTime : ℚ
  serviceType : Option ServiceType
deriving DecidableEq

/-- Embeds the duration computation of the generate loop:
`activity.duration || Math.max(0, Math.round((end - start) / 60000))`. -/
def durationMinutes (a : Activity) : ℚ :=
  jsNumOr a.duration ((max 0 (jsRound ((a.endTime - a.startTime) / 60000)) : ℤ) : ℚ)

/-- One invoice line item as pushed by the generate loop. -/
structure InvoiceItem where
  activityId : Option String
  description : String
  quantity : ℚ
  unitPrice : ℚ
  amount : ℚ
deriving DecidableEq

/-- Embeds the body of the generate loop for one activity: flat service
types bill one unit at the flat rate; any other service type is billed
hourly at its rate; without a service type the resolved hourly rate is
used with the generic description. -/
def computeItem (ctx : BillingContext) (activity : Activity) : InvoiceItem :=
  let dm := durationMinutes activity
  match activity.serviceType with
  | some svc =>
      if svc.rateType = "flat" then
        { activityId := some activity.id, description := svc.name, quantity := 1,
          unitPrice := jsNumOr svc.rateAmount 0,
          amount := round2 (jsNumOr svc.rateAmount 0) }
      else
        { activityId := some activity.id, description := svc.name,
          quantity := adjustMinutes dm ctx.minDuration ctx.rounding / 60,
          unitPrice := jsNumOr svc.rateAmount 0,
          amount := round2 (adjustMinutes dm ctx.minDuration ctx.rounding / 60 *
            jsNumOr svc.rateAmount 0) }
  | none =>
      { activityId := some activity.id, description := "Care Management Services",
        quantity := adjustMinutes dm ctx.minDuration ctx.rounding / 60,
        unitPrice := ctx.hourlyRate,
        amount := round2 (adjustMinutes dm ctx.minDuration ctx.rounding / 60 *
          ctx.hourlyRate) }

/-- The two failure conditions of the generate route that concern the
billing computation: no billable activities in range (status 400,
"No billable activities found for this period"), and a non-empty activity
set whose items were all dropped (status 400, "No billable activities
produced any invoiceable amounts with the current rules."). -/
inductive GenError where
  | noBillableActivities
  | noInvoiceableAmounts
deriving DecidableEq

/-- A payment row: `status` is "completed" for every payment this
subsystem creates; `paidAt` is an abstract timestamp. -/
structure Payment where
  amount : ℚ
  method : String
  status : String
  reference : Option String
  paidAt : ℕ
deriving DecidableEq

/-- An invoice row with its included payments and items. -/
structure Invoice where
  status : String
  totalAmount : ℚ
  sentAt : Option ℕ
  paidAt : Option ℕ
  payments : List Payment
  items : List InvoiceItem
deriving DecidableEq

/-- The `items` array built by the generate loop: one computed item per
activity, skipping (`continue`) every item whose `amount <= 0`. -/
def buildItems (ctx : BillingContext) (activities : List Activity) :
    List InvoiceItem :=
  (activities.map (computeItem ctx)).filter (fun i => !decide (i.amount ≤ 0))

/-- Embeds the generate route after the client lookup: error when no
billable activities exist; build items, drop every item with
`amount <= 0`; error when nothing remains; otherwise a draft invoice
whose total is `round2` of the sum of the item amounts. -/
def generate (ctx : BillingContext) (activities : List Activity) :
    Except GenError Invoice :=
  if activities.isEmpty then
    Except.error GenError.noBillableActivities
  else if (buildItems ctx activities).isEmpty then
    Except.error GenError.noInvoiceableAmounts
  else
    Except.ok
      { status := "draft",
        totalAmount :=
          round2 ((buildItems ctx activities).foldl
            (fun sum i => sum + i.amount) 0),
        sentAt := none, paidAt := none, payments := [],
        items := buildItems ctx activities }

/-- The two validation failures of the mark-paid route. -/
inductive PayError where
  | invalidAmount
  | methodRequired
deriving DecidableEq

/-- Response shape of the mark-paid route. -/
structure MarkPaidResult where
  invoice : Invoice
  balanceRemaining : ℚ
deriving DecidableEq

/-- Embeds the ledger recomputation shared by mark-paid and the Stripe
handler: filter the payments to "completed" status and sum their
amounts, each read as `p.amount || 0`. -/
def completedSum (ps : List Payment) : ℚ :=
  (ps.filter (fun p => decide (p.status = "completed"))).foldl
    (fun sum p => sum + jsNumOr p.amount 0) 0

/-- Embeds the mark-paid route after the invoice lookup: validate the
amount and method, append a completed payment, recompute the balance
over all completed payments, flip to "paid" when nothing remains
(setting `paidAt` only if unset), and report the non-negative balance. -/
def markPaid (inv : Invoice) (amount : ℚ) (method : Option String)
    (reference : Option String) (now : ℕ) : Except PayError MarkPaidResult :=
  if amount ≤ 0 then Except.error PayError.invalidAmount
  else if method.getD "" = "" then Except.error PayError.methodRequired
  else
    let payment : Payment :=
      { amount := amount, method := method.getD "", status := "completed",
        reference := reference, paidAt := now }
    let totalPaid := completedSum (inv.payments ++ [payment])
    let remaining := jsNumOr inv.totalAmount 0 - totalPaid
    let updatedStatus := if remaining ≤ 0 then "paid" else inv.status
    let paidAt := if remaining ≤ 0 then some (inv.paidAt.getD now) else inv.paidAt
    Except.ok
      { invoice := { inv with status := updatedStatus, paidAt := paidAt,
                              payments := inv.payments ++ [payment] },
        balanceRemaining := if remaining > 0 then remaining else 0 }

/-- Embeds `handleStripeInvoicePayment` from the Stripe routes after the
invoice lookup: unconditionally create a completed "stripe_card" payment,
recompute the balance, flip to "paid" when covered (setting `paidAt` only
if unset), else bump a draft invoice to "sent". -/
def handleStripeInvoicePayment (inv : Invoice) (amount : ℚ) (now : ℕ) :
    Invoice :=
  let payment : Payment :=
    { amount := amount, method := "stripe_card", status := "completed",
      reference := none, paidAt := now }
  let totalPaid := completedSum (inv.payments ++ [payment])
  let remaining := jsNumOr inv.totalAmount 0 - totalPaid
  let updatedStatus :=
    if remaining ≤ 0 then "paid"
    else if inv.status = "draft" then "sent"
    else inv.status
  let paidAt := if remaining ≤ 0 then some (inv.paidAt.getD now) else inv.paidAt
  { inv with status := updatedStatus, paidAt := paidAt,
             payments := inv.payments ++ [payment] }

/-- Embeds the checkout.session.completed webhook branch keyed to a found
invoice: the charged amount is `(session.amount_total ?? 0) / 100`. -/
def stripeCheckoutCompleted (inv : Invoice) (amountTotal : Option ℤ)
    (now : ℕ) : Invoice :=
  handleStripeInvoicePayment inv (((amountTotal.getD 0 : ℤ) : ℚ) / 100) now

/-- Embeds the approve route after the invoice lookup: set status "sent"
and overwrite `sentAt` with the current time, with no guard on the
current status. -/
def approve (inv : Invoice) (now : ℕ) : Invoice :=
  { inv with status := "sent", sentAt := some now }

/-- A rule field is truthy when it is present and its numeric value is
non-zero (the spec wording "present, non-zero, non-NaN"). -/
def truthyNum : Option ℚ → Bool
  | none => false
  | some q => decide (q ≠ 0)

/-- First truthy source wins, else the fallback (spec wording for the
layered numeric rule fields). -/
def firstTruthyNum (c o : Option ℚ) (fallback : ℚ) : ℚ :=
  if truthyNum c then c.getD fallback
  else if truthyNum o then o.getD fallback
  else fallback

/-- A rounding rule field counts only when it is exactly "6m" or "15m". -/
def isRoundingChoice (r : Option String) : Bool :=
  decide (r = some "6m") || decide (r = some "15m")

/-- Modelled from the spec wording of the rate resolver, for comparison
with `getBillingContext`: each numeric field is resolved client-over-org
by first-truthy-wins with hard-coded fallbacks 150 and 0, and the
rounding policy takes the client value only when it is exactly "6m" or
"15m", else the org value under the same test, else "none". -/
def resolveBillingContext (clientRules orgRules : RateRule) : BillingContext :=
  { hourlyRate := firstTruthyNum clientRules.hourlyRate orgRules.hourlyRate 150,
    minDuration := firstTruthyNum clientRules.minDuration orgRules.minDuration 0,
    rounding :=
      if isRoundingChoice clientRules.rounding then
        clientRules.rounding.getD "none"
      else if isRoundingChoice orgRules.rounding then
        orgRules.rounding.getD "none"
      else "none" }

/-- Fixture: the default billing context (no rules configured anywhere). -/
def ctxW : BillingContext := { hourlyRate := 150, minDuration := 0, rounding := "none" }

/-- Fixture: a billable activity with a stored 60-minute duration and no
service type. -/
def actW : Activity :=
  { id := "a1", duration := 60, startTime := 0, endTime := 0, serviceType := none }

/-- Fixture: the invoice the generate route produces from `actW` under
`ctxW`. -/
def invW : Invoice :=
  { status := "draft", totalAmount := 150, sentAt := none, paidAt := none,
    payments := [],
    items := [{ activityId := some "a1", description := "Care Management Services",
                quantity := 1, unitPrice := 150, amount := 150 }] }

/-- Fixture: a flat-rate service type. -/
def svcF : ServiceType := { name := "Flat Assessment", rateType := "flat", rateAmount := 50 }

/-- Fixture: a service type with an unrecognized rate type. -/
def svcW : ServiceType := { name := "Weekly Check", rateType := "weekly", rateAmount := 100 }

/-- Fixture: an activity priced by the flat service type. -/
def aF : Activity :=
  { id := "a2", duration := 10, startTime := 0, endTime := 0, serviceType := some svcF }

/-- Fixture: an activity priced by the unrecognized-rate-type service type. -/
def aW : Activity :=
  { id := "a3", duration := 30, startTime := 0, endTime := 0, serviceType := some svcW }

/-- Fixture: a flat service type whose rate is zero, so its item is dropped. -/
def svcZ : ServiceType := { name := "Zero", rateType := "flat", rateAmount := 0 }

/-- Fixture: an activity whose computed item amount is zero. -/
def aZ : Activity :=
  { id := "z1", duration := 10, startTime := 0, endTime := 0, serviceType := some svcZ }

/-- Fixture: a sent invoice for 100 with one completed payment of 50. -/
def invP : Invoice :=
  { status := "sent", totalAmount := 100, sentAt := some 1, paidAt := none,
    payments := [{ amount := 50, method := "check", status := "completed",
                   reference := none, paidAt := 2 }],
    items := [] }

/-- Fixture: a draft invoice for 100 with no payments yet. -/
def invD : Invoice :=
  { status := "draft", totalAmount := 100, sentAt := none, paidAt := none,
    payments := [], items := [] }

/-- Fixture: a sent invoice for 100 with no payments yet. -/
def invS : Invoice :=
  { status := "sent", totalAmount := 100, sentAt := some 1, paidAt := none,
    payments := [], items := [] }

/-- Fixture: the mark-paid response for a 30 payment against `invD`. -/
def resD : MarkPaidResult :=
  { invoice :=
      { status := "draft", totalAmount := 100, sentAt := none, paidAt := none,
        payments := [{ amount := 30, method := "check", status := "completed",
                       reference := none, paidAt := 5 }],
        items := [] },
    balanceRemaining := 70 }

/-- Reading a rational with the JavaScript `|| 0` idiom is the identity. -/
theorem jsNumOr_zero_right (x : ℚ) : jsNumOr x 0 = x := by
  unfold jsNumOr
  split_ifs with h
  · exact h.symm
  · rfl

/-- The minimum-duration floor of `adjustMinutes` equals a max when the
minimum is positive and is the identity otherwise. -/
theorem minFloor_eq_max (minutes minDuration : ℚ) :
    (if minDuration > 0 ∧ minutes < minDuration then minDuration else minutes) =
      (if 0 < minDuration then max minutes minDuration else minutes) := by
  by_cases h : 0 < minDuration
  · by_cases h2 : minutes < minDuration
    · rw [if_pos ⟨h, h2⟩, if_pos h, max_eq_right (le_of_lt h2)]
    · rw [if_neg (fun hc => h2 hc.2), if_pos h, max_eq_left (le_of_not_lt h2)]
  · rw [if_neg (fun hc => h hc.1), if_neg h]

/-- C2: adjustMinutes applies the minimum-duration floor before rounding:
the result is the rounding step applied to max(minutes, minDuration) when
minDuration is positive, else to minutes unchanged; in particular 3
minutes with minDuration 10 and rounding "15m" yields 15. -/
theorem adjustMinutes_floor_before_rounding :
    (∀ (minutes minDuration : ℚ) (rounding : String),
      adjustMinutes minutes minDuration rounding =
        applyRounding
          (if 0 < minDuration then max minutes minDuration else minutes)
          rounding) ∧
    adjustMinutes 3 10 "15m" = 15 := by
  constructor
  · intro minutes minDuration rounding
    simp only [adjustMinutes, applyRounding, minFloor_eq_max]
  · simp only [adjustMinutes, String.reduceEq, reduceIte]
    norm_num [jsRound]

/-- C3 is refuted at minutes 1, minDuration 2, rounding "6m": the floor
raises 1 to 2 but the 6-minute rounding then drops the result to 0,
strictly below the positive minimum duration. -/
theorem adjustMinutes_can_round_below_minDuration :
    (0:ℚ) < 2 ∧ adjustMinutes 1 2 "6m" = 0 ∧ ¬ (2 ≤ adjustMinutes 1 2 "6m") := by
  have h : adjustMinutes 1 2 "6m" = 0 := by
    simp only [adjustMinutes]
    norm_num [jsRound]
  refine ⟨by norm_num, h, ?_⟩
  rw [h]
  norm_num

/-- Strict lower bound for a positive-step nearest rounding: the rounded
value sits above the input minus half the step. -/
theorem jsRound_step_lb (s : ℚ) (hs : 0 < s) (x : ℚ) :
    x - s / 2 < (jsRound (x / s) : ℚ) * s := by
  have h1 : x / s - 1 / 2 < (jsRound (x / s) : ℚ) := by
    have h2 := Int.sub_one_lt_floor (x / s + 1 / 2)
    unfold jsRound
    linarith
  have h3 := mul_lt_mul_of_pos_right h1 hs
  rw [sub_mul, div_mul_cancel₀ x (ne_of_gt hs)] at h3
  linarith

/-- C3 amended: when minDuration is positive the result of adjustMinutes
is at least minDuration if rounding is "none", but under "6m" ("15m")
rounding it is only guaranteed to exceed minDuration - 3 (minDuration -
15/2), since rounding to the nearest step can land below the floored
minimum; the result is always an integer multiple of 6 (of 15) under
"6m" ("15m"). -/
theorem adjustMinutes_minDuration_and_multiples (minutes minDuration : ℚ) :
    (0 < minDuration → minDuration ≤ adjustMinutes minutes minDuration "none") ∧
    (0 < minDuration →
      minDuration - 3 < adjustMinutes minutes minDuration "6m") ∧
    (0 < minDuration →
      minDuration - 15 / 2 < adjustMinutes minutes minDuration "15m") ∧
    (∃ k : ℤ, adjustMinutes minutes minDuration "6m" = 6 * (k : ℚ)) ∧
    (∃ k : ℤ, adjustMinutes minutes minDuration "15m" = 15 * (k : ℚ)) := by
  set m : ℚ :=
    if minDuration > 0 ∧ minutes < minDuration then minDuration else minutes
    with hmdef
  have hge : 0 < minDuration → minDuration ≤ m := by
    intro h
    rw [hmdef]
    by_cases h2 : minutes < minDuration
    · rw [if_pos ⟨h, h2⟩]
    · rw [if_neg (fun hc => h2 hc.2)]
      exact le_of_not_lt h2
  have e_none : adjustMinutes minutes minDuration "none" = m := by
    simp only [adjustMinutes, String.reduceEq, reduceIte]
  have e_6 : adjustMinutes minutes minDuration "6m" = (jsRound (m / 6) : ℚ) * 6 := by
    simp only [adjustMinutes, String.reduceEq, reduceIte]
  have e_15 : adjustMinutes minutes minDuration "15m" = (jsRound (m / 15) : ℚ) * 15 := by
    simp only [adjustMinutes, String.reduceEq, reduceIte]
  refine ⟨?_, ?_, ?_, ⟨jsRound (m / 6), by rw [e_6]; ring⟩,
    ⟨jsRound (m / 15), by rw [e_15]; ring⟩⟩
  · intro h
    rw [e_none]
    exact hge h
  · intro h
    rw [e_6]
    have := jsRound_step_lb 6 (by norm_num) m
    have h6 := hge h
    linarith
  · intro h
    rw [e_15]
    have := jsRound_step_lb 15 (by norm_num) m
    have h15 := hge h
    linarith

/-- Witness for the amended C3 theorem at minutes 3, minDuration 10. -/
theorem adjustMinutes_minDuration_and_multiples_witness :
    ((0:ℚ) < 10 ∧ (10:ℚ) ≤ adjustMinutes 3 10 "none") ∧
    ((10:ℚ) - 3 < adjustMinutes 3 10 "6m") ∧
    ((10:ℚ) - 15 / 2 < adjustMinutes 3 10 "15m") ∧
    (∃ k : ℤ, adjustMinutes 3 10 "6m" = 6 * (k : ℚ)) ∧
    (∃ k : ℤ, adjustMinutes 3 10 "15m" = 15 * (k : ℚ)) := by
  have h := adjustMinutes_minDuration_and_multiples 3 10
  have h10 : (0:ℚ) < 10 := by norm_num
  exact ⟨⟨h10, h.1 h10⟩, h.2.1 h10, h.2.2.1 h10, h.2.2.2.1, h.2.2.2.2⟩

/-- C10: the approve route is unguarded: whatever the current status
(including "paid" or "overdue"), it sets the status to "sent" and
overwrites sentAt with the current time, leaving every other field of
the invoice unchanged. -/
theorem approve_unguarded_sets_sent (inv : Invoice) (now : ℕ) :
    (approve inv now).status = "sent" ∧ (approve inv now).sentAt = some now ∧
    (approve inv now).totalAmount = inv.totalAmount ∧
    (approve inv now).paidAt = inv.paidAt ∧
    (approve inv now).payments = inv.payments ∧
    (approve inv now).items = inv.items :=
  ⟨rfl, rfl, rfl, rfl, rfl, rfl⟩

/-- The `Number(c) || Number(o) || fallback` chain coincides with
first-truthy-wins layering over the two optional sources. -/
theorem numOr_eq_firstTruthyNum (c o : Option ℚ) (fb : ℚ) :
    numOr c (numOr o fb) = firstTruthyNum c o fb := by
  cases c with
  | none =>
      cases o with
      | none => simp [numOr, firstTruthyNum, truthyNum]
      | some q =>
          by_cases h : q = 0 <;>
            simp [numOr, jsNumOr, firstTruthyNum, truthyNum, h]
  | some p =>
      by_cases hp : p = 0
      · cases o with
        | none => simp [numOr, jsNumOr, firstTruthyNum, truthyNum, hp]
        | some q =>
            by_cases h : q = 0 <;>
              simp [numOr, jsNumOr, firstTruthyNum, truthyNum, hp, h]
      · simp [numOr, jsNumOr, firstTruthyNum, truthyNum, hp]

/-- The boolean "is exactly 6m or 15m" test matches the disjunction the
code writes out. -/
theorem isRoundingChoice_iff (r : Option String) :
    isRoundingChoice r = true ↔ (r = some "6m" ∨ r = some "15m") := by
  simp [isRoundingChoice]

/-- C4: getBillingContext resolves exactly by the layered precedence the
spec describes: truthy client numeric field, else truthy org field, else
the hard-coded fallbacks 150 and 0; rounding is the client value only
when exactly "6m" or "15m", else the org value under the same test, else
"none" (so a client "none" cannot suppress an org-mandated rounding).
Totality of the Lean function embeds the no-throw behaviour. -/
theorem getBillingContext_layered (clientRules orgRules : RateRule) :
    getBillingContext clientRules orgRules =
      resolveBillingContext clientRules orgRules := by
  unfold getBillingContext resolveBillingContext
  simp only [BillingContext.mk.injEq]
  refine ⟨numOr_eq_firstTruthyNum _ _ _, numOr_eq_firstTruthyNum _ _ _, ?_⟩
  by_cases h1 : clientRules.rounding = some "6m" ∨ clientRules.rounding = some "15m"
  · rw [if_pos h1, if_pos ((isRoundingChoice_iff _).mpr h1)]
  · rw [if_neg h1, if_neg (fun hc => h1 ((isRoundingChoice_iff _).mp hc))]
    by_cases h2 : orgRules.rounding = some "6m" ∨ orgRules.rounding = some "15m"
    · rw [if_pos h2, if_pos ((isRoundingChoice_iff _).mpr h2)]
    · rw [if_neg h2, if_neg (fun hc => h2 ((isRoundingChoice_iff _).mp hc))]

/-- C5: an activity with a service type is priced by the flat path when
rateType is exactly "flat" (one unit at the flat rate, duration
irrelevant), and by the hourly path for every other rateType value,
including unrecognized ones; the computation is total, so no activity is
rejected. -/
theorem computeItem_flat_vs_hourly (ctx : BillingContext) (a : Activity)
    (svc : ServiceType) (hsvc : a.serviceType = some svc) :
    (svc.rateType = "flat" →
      computeItem ctx a =
        { activityId := some a.id, description := svc.name, quantity := 1,
          unitPrice := jsNumOr svc.rateAmount 0,
          amount := round2 (jsNumOr svc.rateAmount 0) } ∧
      ∀ b : Activity, b.serviceType = some svc →
        (computeItem ctx b).quantity = (computeItem ctx a).quantity ∧
        (computeItem ctx b).unitPrice = (computeItem ctx a).unitPrice ∧
        (computeItem ctx b).amount = (computeItem ctx a).amount) ∧
    (svc.rateType ≠ "flat" →
      computeItem ctx a =
        { activityId := some a.id, description := svc.name,
          quantity :=
            adjustMinutes (durationMinutes a) ctx.minDuration ctx.rounding / 60,
          unitPrice := jsNumOr svc.rateAmount 0,
          amount :=
            round2 (adjustMinutes (durationMinutes a) ctx.minDuration ctx.rounding
              / 60 * jsNumOr svc.rateAmount 0) }) := by
  constructor
  · intro hflat
    constructor
    · simp [computeItem, hsvc, hflat]
    · intro b hb
      simp [computeItem, hsvc, hb, hflat]
  · intro hother
    simp [computeItem, hsvc, hother]

/-- Witness for C5: the flat fixture is billed one unit at 50 regardless
of its 10-minute duration, and the "weekly" fixture takes the hourly
path. -/
theorem computeItem_flat_vs_hourly_witness :
    (computeItem ctxW aF =
      { activityId := some aF.id, description := svcF.name, quantity := 1,
        unitPrice := jsNumOr svcF.rateAmount 0,
        amount := round2 (jsNumOr svcF.rateAmount 0) }) ∧
    (computeItem ctxW aW =
      { activityId := some aW.id, description := svcW.name,
        quantity :=
          adjustMinutes (durationMinutes aW) ctxW.minDuration ctxW.rounding / 60,
        unitPrice := jsNumOr svcW.rateAmount 0,
        amount :=
          round2 (adjustMinutes (durationMinutes aW) ctxW.minDuration ctxW.rounding
            / 60 * jsNumOr svcW.rateAmount 0) }) :=
  ⟨((computeItem_flat_vs_hourly ctxW aF svcF rfl).1 rfl).1,
   (computeItem_flat_vs_hourly ctxW aW svcW rfl).2 (by decide)⟩

/-- Every computed item satisfies the per-item rounding invariant
`amount = round2(quantity * unitPrice)`: flat items have quantity 1, and
both hourly paths round the product explicitly. -/
theorem computeItem_amount_eq (ctx : BillingContext) (a : Activity) :
    (computeItem ctx a).amount =
      round2 ((computeItem ctx a).quantity * (computeItem ctx a).unitPrice) := by
  cases hsvc : a.serviceType with
  | none => simp [computeItem, hsvc]
  | some svc =>
      by_cases h : svc.rateType = "flat"
      · simp [computeItem, hsvc, h, one_mul]
      · simp [computeItem, hsvc, h]

/-- The reduce over item amounts is the sum of the mapped amounts. -/
theorem foldl_add_amount (l : List InvoiceItem) (acc : ℚ) :
    l.foldl (fun sum i => sum + i.amount) acc =
      acc + (l.map (fun i => i.amount)).sum := by
  induction l generalizing acc with
  | nil => simp
  | cons x xs ih => simp [ih, add_assoc]

/-- Every kept item came from the loop with a positive rounded amount. -/
theorem buildItems_mem (ctx : BillingContext) (activities : List Activity)
    {i : InvoiceItem} (hi : i ∈ buildItems ctx activities) :
    i.amount = round2 (i.quantity * i.unitPrice) ∧ 0 < i.amount := by
  unfold buildItems at hi
  have h1 := List.mem_of_mem_filter hi
  have h2 := List.of_mem_filter hi
  obtain ⟨a, _, rfl⟩ := List.mem_map.mp h1
  refine ⟨computeItem_amount_eq ctx a, ?_⟩
  have h3 : ¬ (computeItem ctx a).amount ≤ 0 := by simpa using h2
  exact lt_of_not_le h3

/-- C1: on every successful generation the invoice total is round2 of the
sum of the per-item values round2(quantity * unitPrice): per-item rounding
precedes summation. -/
theorem generate_totalAmount_rounds_rounded_items
    (ctx : BillingContext) (activities : List Activity) (inv : Invoice)
    (h : generate ctx activities = Except.ok inv) :
    inv.totalAmount =
      round2 ((inv.items.map (fun i => round2 (i.quantity * i.unitPrice))).sum) := by
  unfold generate at h
  split_ifs at h with h1 h2
  have hinv := Except.ok.inj h
  subst hinv
  dsimp only
  congr 1
  rw [foldl_add_amount, zero_add]
  exact congrArg List.sum
    (List.map_congr_left fun i hi => (buildItems_mem ctx activities hi).1)

/-- Witness for C1 on the fixture generation. -/
theorem generate_totalAmount_rounds_rounded_items_witness :
    generate ctxW [actW] = Except.ok invW ∧
    invW.totalAmount =
      round2 ((invW.items.map (fun i => round2 (i.quantity * i.unitPrice))).sum) := by
  have hgen : generate ctxW [actW] = Except.ok invW := by
    norm_num [generate, buildItems, computeItem, ctxW, actW, invW,
      durationMinutes, adjustMinutes, jsNumOr, round2, jsRound, List.filter,
      List.foldl]
  exact ⟨hgen, generate_totalAmount_rounds_rounded_items ctxW [actW] invW hgen⟩

/-- C6: generation keeps exactly the computed items with positive amount;
when at least one billable activity exists but every computed amount is
non-positive, it fails with the empty-items error, which is distinct from
the no-activities error. -/
theorem generate_drop_nonpositive_and_distinct_errors
    (ctx : BillingContext) (activities : List Activity) :
    (∀ inv, generate ctx activities = Except.ok inv →
      inv.items = (activities.map (computeItem ctx)).filter
        (fun i => !decide (i.amount ≤ 0))) ∧
    (∀ inv, generate ctx activities = Except.ok inv →
      ∀ i ∈ inv.items, 0 < i.amount) ∧
    (activities ≠ [] →
      (∀ a ∈ activities, (computeItem ctx a).amount ≤ 0) →
      generate ctx activities = Except.error GenError.noInvoiceableAmounts) ∧
    GenError.noInvoiceableAmounts ≠ GenError.noBillableActivities := by
  refine ⟨?_, ?_, ?_, by decide⟩
  · intro inv h
    unfold generate at h
    split_ifs at h with h1 h2
    have hinv := Except.ok.inj h
    subst hinv
    rfl
  · intro inv h i hi
    unfold generate at h
    split_ifs at h with h1 h2
    have hinv := Except.ok.inj h
    subst hinv
    exact (buildItems_mem ctx activities hi).2
  · intro hne hall
    have hempty : buildItems ctx activities = [] := by
      unfold buildItems
      rw [List.filter_eq_nil_iff]
      intro i hi
      obtain ⟨a, ha, rfl⟩ := List.mem_map.mp hi
      have := hall a ha
      simp [this]
    unfold generate
    rw [if_neg (by simpa [List.isEmpty_iff] using hne), if_pos (by rw [hempty]; rfl)]

/-- Witness for C6: a single zero-amount flat activity is dropped and the
generation fails with the empty-items error, while the fixture generation
keeps exactly its positive item. -/
theorem generate_drop_nonpositive_witness :
    ([aZ] ≠ ([] : List Activity)) ∧
    (∀ a ∈ [aZ], (computeItem ctxW a).amount ≤ 0) ∧
    generate ctxW [aZ] = Except.error GenError.noInvoiceableAmounts ∧
    invW.items = ([actW].map (computeItem ctxW)).filter
      (fun i => !decide (i.amount ≤ 0)) ∧
    (∀ i ∈ invW.items, 0 < i.amount) := by
  have h1 : [aZ] ≠ ([] : List Activity) := by simp
  have h2 : ∀ a ∈ [aZ], (computeItem ctxW a).amount ≤ 0 := by
    intro a ha
    rw [List.mem_singleton] at ha
    subst ha
    norm_num [computeItem, aZ, svcZ, jsNumOr, round2, jsRound]
  have hgen : generate ctxW [actW] = Except.ok invW := by
    norm_num [generate, buildItems, computeItem, ctxW, actW, invW,
      durationMinutes, adjustMinutes, jsNumOr, round2, jsRound, List.filter,
      List.foldl]
  exact ⟨h1, h2,
    (generate_drop_nonpositive_and_distinct_errors ctxW [aZ]).2.2.1 h1 h2,
    (generate_drop_nonpositive_and_distinct_errors ctxW [actW]).1 invW hgen,
    (generate_drop_nonpositive_and_distinct_errors ctxW [actW]).2.1 invW hgen⟩

/-- The positive-part guard the route places on the remaining balance is a max. -/
theorem ite_pos_eq_max (r : ℚ) : (if r > 0 then r else 0) = max 0 r := by
  split_ifs with h
  · exact (max_eq_right (le_of_lt h)).symm
  · exact (max_eq_left (le_of_not_lt h)).symm

/-- C7: a valid mark-paid call always succeeds (no overpayment cap):
the completed payment is appended, the reported balance is the
non-negative part of totalAmount minus the sum of all completed payments
including the new one, the status flips to "paid" exactly when nothing
remains (setting paidAt only if it was unset), and a positive remainder
leaves status and paidAt untouched. -/
theorem markPaid_payment_ledger (inv : Invoice) (amount : ℚ) (m : String)
    (reference : Option String) (now : ℕ) (h1 : 0 < amount) (h2 : m ≠ "") :
    ∃ res, markPaid inv amount (some m) reference now = Except.ok res ∧
      res.invoice.payments = inv.payments ++
        [{ amount := amount, method := m, status := "completed",
           reference := reference, paidAt := now }] ∧
      res.balanceRemaining =
        max 0 (inv.totalAmount - completedSum res.invoice.payments) ∧
      (inv.totalAmount - completedSum (inv.payments ++
          [{ amount := amount, method := m, status := "completed",
             reference := reference, paidAt := now }]) ≤ 0 →
        res.invoice.status = "paid" ∧
        res.invoice.paidAt = some (inv.paidAt.getD now)) ∧
      (0 < inv.totalAmount - completedSum (inv.payments ++
          [{ amount := amount, method := m, status := "completed",
             reference := reference, paidAt := now }]) →
        res.invoice.status = inv.status ∧ res.invoice.paidAt = inv.paidAt) := by
  unfold markPaid
  rw [if_neg (not_le.mpr h1), if_neg (by simpa using h2)]
  refine ⟨_, rfl, rfl, ?_, ?_, ?_⟩
  · dsimp only
    rw [jsNumOr_zero_right, Option.getD_some, ite_pos_eq_max]
  · dsimp only
    rw [jsNumOr_zero_right, Option.getD_some]
    intro h
    rw [if_pos h, if_pos h]
    exact ⟨rfl, rfl⟩
  · dsimp only
    rw [jsNumOr_zero_right, Option.getD_some]
    intro h
    rw [if_neg (not_le.mpr h), if_neg (not_le.mpr h)]
    exact ⟨rfl, rfl⟩

/-- Witness for C7: paying 60 on the invoice for 100 that already carries
a completed 50 payment overpays it; the instance is discharged at that
input. -/
theorem markPaid_payment_ledger_witness :
    (0:ℚ) < 60 ∧ ("check" : String) ≠ "" ∧
    (∃ res, markPaid invP 60 (some "check") none 5 = Except.ok res ∧
      res.invoice.payments = invP.payments ++
        [{ amount := 60, method := "check", status := "completed",
           reference := none, paidAt := 5 }] ∧
      res.balanceRemaining =
        max 0 (invP.totalAmount - completedSum res.invoice.payments) ∧
      (invP.totalAmount - completedSum (invP.payments ++
          [{ amount := 60, method := "check", status := "completed",
             reference := none, paidAt := 5 }]) ≤ 0 →
        res.invoice.status = "paid" ∧
        res.invoice.paidAt = some (invP.paidAt.getD 5)) ∧
      (0 < invP.totalAmount - completedSum (invP.payments ++
          [{ amount := 60, method := "check", status := "completed",
             reference := none, paidAt := 5 }]) →
        res.invoice.status = invP.status ∧
        res.invoice.paidAt = invP.paidAt)) :=
  ⟨by norm_num, by decide,
    markPaid_payment_ledger invP 60 "check" none 5 (by norm_num) (by decide)⟩

/-- C8: the two payment entry points disagree on a partial payment of a
draft invoice: the Stripe checkout flow bumps a draft invoice with a
positive remaining balance to "sent", while the admin mark-paid route
leaves the status unchanged whenever a positive balance remains. -/
theorem stripe_draft_bump_vs_markPaid (inv : Invoice) (amount : ℚ) (now : ℕ) :
    (0 < inv.totalAmount - completedSum (inv.payments ++
        [{ amount := amount, method := "stripe_card", status := "completed",
           reference := none, paidAt := now }]) →
      inv.status = "draft" →
      (handleStripeInvoicePayment inv amount now).status = "sent") ∧
    (∀ (m : String) (reference : Option String) (res : MarkPaidResult),
      markPaid inv amount (some m) reference now = Except.ok res →
      0 < inv.totalAmount - completedSum (inv.payments ++
          [{ amount := amount, method := m, status := "completed",
             reference := reference, paidAt := now }]) →
      res.invoice.status = inv.status) := by
  constructor
  · intro hrem hdraft
    unfold handleStripeInvoicePayment
    dsimp only
    rw [jsNumOr_zero_right]
    rw [if_neg (not_le.mpr hrem), if_pos hdraft]
  · intro m reference res hok hrem
    unfold markPaid at hok
    by_cases hA : amount ≤ 0
    · rw [if_pos hA] at hok
      exact Except.noConfusion hok
    · rw [if_neg hA] at hok
      by_cases hM : (some m).getD "" = ""
      · rw [if_pos hM] at hok
        exact Except.noConfusion hok
      · rw [if_neg hM] at hok
        have hres := Except.ok.inj hok
        subst hres
        dsimp only
        rw [jsNumOr_zero_right, Option.getD_some]
        rw [if_neg (not_le.mpr hrem)]

/-- Witness for C8: a 30 payment against the draft invoice for 100. -/
theorem stripe_draft_bump_vs_markPaid_witness :
    (0 < invD.totalAmount - completedSum (invD.payments ++
        [{ amount := 30, method := "stripe_card", status := "completed",
           reference := none, paidAt := 5 }])) ∧
    invD.status = "draft" ∧
    (handleStripeInvoicePayment invD 30 5).status = "sent" ∧
    markPaid invD 30 (some "check") none 5 = Except.ok resD ∧
    resD.invoice.status = invD.status := by
  have hrem : (0:ℚ) < invD.totalAmount - completedSum (invD.payments ++
      [{ amount := 30, method := "stripe_card", status := "completed",
         reference := none, paidAt := 5 }]) := by
    norm_num [invD, completedSum, jsNumOr]
  have hrem2 : (0:ℚ) < invD.totalAmount - completedSum (invD.payments ++
      [{ amount := 30, method := "check", status := "completed",
         reference := none, paidAt := 5 }]) := by
    norm_num [invD, completedSum, jsNumOr]
  have hok : markPaid invD 30 (some "check") none 5 = Except.ok resD := by
    norm_num [markPaid, invD, resD, completedSum, jsNumOr]
    intro h
    exact absurd h (by decide)
  exact ⟨hrem, rfl, (stripe_draft_bump_vs_markPaid invD 30 5).1 hrem rfl, hok,
    (stripe_draft_bump_vs_markPaid invD 30 5).2 "check" none resD hok hrem2⟩

/-- C9 is refuted at the Stripe entry point: a checkout session with
amount_total 0 on the sent fixture invoice records a completed Payment of
amount 0 — no amount validation happens there and the payment is created
rather than rejected. -/
theorem stripe_webhook_records_nonpositive_payment :
    ¬ ((0:ℚ) < 0) ∧
    (stripeCheckoutCompleted invS (some 0) 7).payments =
      [{ amount := 0, method := "stripe_card", status := "completed",
         reference := none, paidAt := 7 }] := by
  constructor
  · norm_num
  · norm_num [stripeCheckoutCompleted, handleStripeInvoicePayment, invS]

/-- C9 amended: only the admin mark-paid route validates payments
(rejecting a non-positive amount, then a missing or empty method, without
creating a Payment); the Stripe webhook flow performs no input
validation and always appends a completed "stripe_card" payment of
whatever amount the session carries, even a non-positive one. -/
theorem payment_validation_per_entry_point (inv : Invoice) (amount : ℚ)
    (method reference : Option String) (now : ℕ) :
    (amount ≤ 0 →
      markPaid inv amount method reference now =
        Except.error PayError.invalidAmount) ∧
    (¬ amount ≤ 0 → method.getD "" = "" →
      markPaid inv amount method reference now =
        Except.error PayError.methodRequired) ∧
    (handleStripeInvoicePayment inv amount now).payments =
      inv.payments ++
        [{ amount := amount, method := "stripe_card", status := "completed",
           reference := none, paidAt := now }] := by
  refine ⟨?_, ?_, rfl⟩
  · intro h
    unfold markPaid
    rw [if_pos h]
  · intro h1 h2
    unfold markPaid
    rw [if_neg h1, if_pos h2]

/-- Witness for the amended C9 at concrete invalid and webhook inputs. -/
theorem payment_validation_per_entry_point_witness :
    ((-1:ℚ) ≤ 0 ∧
      markPaid invS (-1) (some "check") none 3 =
        Except.error PayError.invalidAmount) ∧
    (¬ (1:ℚ) ≤ 0 ∧ (none : Option String).getD "" = "" ∧
      markPaid invS 1 none none 3 = Except.error PayError.methodRequired) ∧
    (handleStripeInvoicePayment invS 0 7).payments =
      invS.payments ++
        [{ amount := 0, method := "stripe_card", status := "completed",
           reference := none, paidAt := 7 }] :=
  ⟨⟨by norm_num,
      (payment_validation_per_entry_point invS (-1) (some "check") none 3).1
        (by norm_num)⟩,
    ⟨by norm_num, rfl,
      (payment_validation_per_entry_point invS 1 none none 3).2.1
        (by norm_num) rfl⟩,
    (payment_validation_per_entry_point invS 0 none none 7).2.2⟩

end ElderFlow
